import Mathlib

/-
Verification of the lab_5_scrapper crawler (scrapper.py): configuration
validation, the seed-driven URL-discovery loop, and per-page article
extraction, shallowly embedded as executable Lean definitions.
-/

namespace Scrapper

/-! ## Configuration documents and validation (Config._validate_config_content) -/

/-- A JSON-like value, the shape of fields in the raw configuration document. -/
inductive Json where
  | int (n : Int)
  | str (s : String)
  | bool (b : Bool)
  | list (xs : List Json)
  | dict (kvs : List (String × Json))

/-- The raw configuration document, with the field names used by the source. -/
structure RawConfig where
  seed_urls : Json
  total_articles_to_find_and_parse : Json
  headers : Json
  encoding : Json
  timeout : Json
  should_verify_certificate : Json
  headless_mode : Json

/-- The exception kinds the source can raise during validation.
`pyTypeError` models the TypeError that `re.match` raises on a non-string. -/
inductive VError where
  | IncorrectSeedURLError
  | IncorrectNumberOfArticlesError
  | NumberOfArticlesOutOfRangeError
  | IncorrectHeadersError
  | IncorrectEncodingError
  | IncorrectTimeoutError
  | IncorrectVerifyError
  | pyTypeError
  deriving DecidableEq

/-- Decides whether `p` is a leading piece of `s`, over character lists. -/
def isLeadingChars : List Char → List Char → Bool
  | [], _ => true
  | _ :: _, [] => false
  | a :: restA, b :: restB => a == b && isLeadingChars restA restB

/-- Python `s.startswith(p)`. -/
def startsWithStr (s p : String) : Bool :=
  isLeadingChars p.data s.data

/-- Python truthiness of `re.match(r'https?://(www.)?', s)`: since the
`(www.)?` group is optional, the pattern matches exactly when the string
starts with `http://` or `https://`. -/
def matchesSeedPattern (s : String) : Bool :=
  startsWithStr s "http://" || startsWithStr s "https://"

/-- Python `all(re.match(pattern, u) for u in xs)`: short-circuits on the
first non-matching string; a non-string element raises TypeError. -/
def allSeedsMatch : List Json → Except VError Bool
  | [] => .ok true
  | Json.str s :: rest =>
      if matchesSeedPattern s then allSeedsMatch rest else .ok false
  | _ :: _ => .error .pyTypeError

/-- Python `isinstance(x, int)`; a Python bool is an instance of int. -/
def pyIsInt : Json → Bool
  | .int _ => true
  | .bool _ => true
  | _ => false

/-- The integer value of a Python int-like value (True is 1, False is 0). -/
def pyIntVal : Json → Int
  | .int n => n
  | .bool b => if b then 1 else 0
  | _ => 0

/-- First two checks of `_validate_config_content`: `seed_urls` must be a
list and every element must match the seed pattern, else
IncorrectSeedURLError. -/
def check_seed_urls (c : RawConfig) : Except VError Unit :=
  match c.seed_urls with
  | .list xs =>
      match allSeedsMatch xs with
      | .error e => .error e
      | .ok true => .ok ()
      | .ok false => .error .IncorrectSeedURLError
  | _ => .error .IncorrectSeedURLError

/-- Third and fourth checks of `_validate_config_content`: a non-int or
non-positive count raises IncorrectNumberOfArticlesError; then a count
outside `1 < n <= 150` raises NumberOfArticlesOutOfRangeError. -/
def check_num_articles (c : RawConfig) : Except VError Unit :=
  if pyIsInt c.total_articles_to_find_and_parse = false ∨
      pyIntVal c.total_articles_to_find_and_parse ≤ 0 then
    .error .IncorrectNumberOfArticlesError
  else if ¬ (1 < pyIntVal c.total_articles_to_find_and_parse ∧
      pyIntVal c.total_articles_to_find_and_parse ≤ 150) then
    .error .NumberOfArticlesOutOfRangeError
  else
    .ok ()

/-- `headers` must be a dict, else IncorrectHeadersError. -/
def check_headers (c : RawConfig) : Except VError Unit :=
  match c.headers with
  | .dict _ => .ok ()
  | _ => .error .IncorrectHeadersError

/-- `encoding` must be a str, else IncorrectEncodingError. -/
def check_encoding (c : RawConfig) : Except VError Unit :=
  match c.encoding with
  | .str _ => .ok ()
  | _ => .error .IncorrectEncodingError

/-- `timeout` must be an int with `0 < timeout < 60`, else
IncorrectTimeoutError. -/
def check_timeout (c : RawConfig) : Except VError Unit :=
  if pyIsInt c.timeout = false ∨
      ¬ (0 < pyIntVal c.timeout ∧ pyIntVal c.timeout < 60) then
    .error .IncorrectTimeoutError
  else
    .ok ()

/-- `should_verify_certificate` and `headless_mode` must both be bools,
else IncorrectVerifyError. -/
def check_bool_flags (c : RawConfig) : Except VError Unit :=
  match c.should_verify_certificate, c.headless_mode with
  | .bool _, .bool _ => .ok ()
  | _, _ => .error .IncorrectVerifyError

/-- `Config._validate_config_content`: the checks run in source order and
the first failing check raises; on success, no error is produced. -/
def validate_config_content (c : RawConfig) : Except VError Unit :=
  match check_seed_urls c with
  | .error e => .error e
  | .ok _ =>
    match check_num_articles c with
    | .error e => .error e
    | .ok _ =>
      match check_headers c with
      | .error e => .error e
      | .ok _ =>
        match check_encoding c with
        | .error e => .error e
        | .ok _ =>
          match check_timeout c with
          | .error e => .error e
          | .ok _ => check_bool_flags c

/-! ## Crawler: URL discovery (Crawler._extract_url, Crawler.find_articles) -/

/-- Runtime exceptions of the extraction code: `attributeError` is raised
by dereferencing a `None` lookup result; `valueError` by a failed
`strptime`. -/
inductive PyError where
  | attributeError
  | valueError
  deriving DecidableEq

/-- An anchor element; `href` is `none` when the `href` attribute is
absent (`link.get('href')` returns None). -/
structure Anchor where
  href : Option String
  deriving DecidableEq

/-- A fetched seed page: `contentRegion` is the result of
`find(name='div', class_='region region-content')` — `none` when the
container is absent, otherwise the page's anchors in document order. -/
structure SeedPage where
  contentRegion : Option (List Anchor)
  deriving DecidableEq

/-- The hardcoded site base URL (`Crawler.url_pattern`). -/
def url_pattern : String := "https://www.comnews.ru/"

/-- The loop body of `_extract_url` over the anchors of the content
region: the first anchor whose href starts with `/content/` and whose
absolute URL is not yet discovered is appended to `urls` and returned;
an anchor with no href raises AttributeError (`None.startswith`); if the
loop finishes, Python returns None. The discovered list holds
`Option String` because `find_articles` also appends None to it. -/
def extractLoop (pat : String) :
    List Anchor → List (Option String) →
      Except PyError (Option String × List (Option String))
  | [], urls => .ok (none, urls)
  | a :: rest, urls =>
    match a.href with
    | none => .error .attributeError
    | some h =>
      if startsWithStr h "/content/" then
        let url := pat ++ h
        if some url ∈ urls then
          extractLoop pat rest urls
        else
          .ok (some url, urls ++ [some url])
      else
        extractLoop pat rest urls

/-- `Crawler._extract_url`: dereferences the container lookup without a
presence guard (`links.find_all` on None raises AttributeError), then
scans the anchors. -/
def extract_url (pat : String) (page : SeedPage) (urls : List (Option String)) :
    Except PyError (Option String × List (Option String)) :=
  match page.contentRegion with
  | none => .error .attributeError
  | some anchors => extractLoop pat anchors urls

/-- The outcome of `make_request` on a seed URL: `fail` models a response
with `not response.ok`; `ok` carries the parsed page. -/
inductive FetchResult where
  | fail
  | ok (page : SeedPage)

/-- One pass of the `for seed_url in seed_urls` body of `find_articles`:
a failed fetch is skipped; otherwise `_extract_url` runs (possibly
appending and returning a URL), the loop breaks when the target length is
reached, and then the returned value — possibly None, possibly a URL that
`_extract_url` already appended — is appended a second time, followed by
another break check. An AttributeError from `_extract_url` propagates. -/
def onePass (pat : String) (n : Nat) :
    List FetchResult → List (Option String) →
      Except PyError (List (Option String))
  | [], urls => .ok urls
  | .fail :: rest, urls => onePass pat n rest urls
  | .ok page :: rest, urls =>
    match extract_url pat page urls with
    | .error e => .error e
    | .ok (newUrl, urls1) =>
      if n ≤ urls1.length then
        .ok urls1
      else
        let urls2 := urls1 ++ [newUrl]
        if n ≤ urls2.length then
          .ok urls2
        else
          onePass pat n rest urls2

/-- The `while len(self.urls) < n_len` loop of `find_articles`, with
explicit fuel bounding the number of passes: `fetch k` gives the fetch
outcomes of pass `k`, one per seed URL in configured order. Result
`.ok none` means the fuel ran out with the loop still running;
`.ok (some urls)` means the loop terminated with that discovered list. -/
def findArticlesAux (pat : String) (n : Nat) (fetch : Nat → List FetchResult) :
    Nat → Nat → List (Option String) →
      Except PyError (Option (List (Option String)))
  | 0, _, _ => .ok none
  | fuel + 1, k, urls =>
    if urls.length < n then
      match onePass pat n (fetch k) urls with
      | .error e => .error e
      | .ok urls1 => findArticlesAux pat n fetch fuel (k + 1) urls1
    else
      .ok (some urls)

/-- `Crawler.find_articles`, started from the empty discovered list. -/
def find_articles (pat : String) (n : Nat) (fetch : Nat → List FetchResult)
    (fuel : Nat) : Except PyError (Option (List (Option String))) :=
  findArticlesAux pat n fetch fuel 0 []

/-! ## Date parsing (HTMLParser.unify_date_format) -/

/-- A parsed calendar date (the observable content of the
`datetime.datetime` returned by `strptime` on a date-only format). -/
structure PyDate where
  year : Nat
  month : Nat
  day : Nat
  deriving DecidableEq

/-- Splits a character list on the literal dot, keeping empty pieces,
like a regex walk over the `%d.%m.%Y` format string. -/
def splitOnDot : List Char → List (List Char)
  | [] => [[]]
  | c :: rest =>
    let r := splitOnDot rest
    if c == '.' then
      [] :: r
    else
      match r with
      | [] => [[c]]
      | g :: gs => (c :: g) :: gs

/-- True when the piece is a nonempty run of decimal digits. -/
def digitsOnly (ds : List Char) : Bool :=
  !ds.isEmpty && ds.all Char.isDigit

/-- The numeric value of a run of decimal digits. -/
def digitsToNat (ds : List Char) : Nat :=
  ds.foldl (fun a c => a * 10 + (c.toNat - 48)) 0

/-- The Gregorian leap-year rule used by `datetime` range validation. -/
def isLeap (y : Nat) : Bool :=
  (y % 4 == 0 && y % 100 != 0) || y % 400 == 0

/-- Number of days of month `m` in year `y`. -/
def daysInMonth (y m : Nat) : Nat :=
  if m == 2 then
    if isLeap y then 29 else 28
  else if m == 4 || m == 6 || m == 9 || m == 11 then 30
  else 31

/-- `HTMLParser.unify_date_format`:
`datetime.datetime.strptime(date_str, '%d.%m.%Y')` — a 1-or-2-digit day,
a literal dot, a 1-or-2-digit month, a literal dot, a 4-digit year,
consuming the whole string, with the day/month ranges validated; any
mismatch raises ValueError. -/
def unify_date_format (date_str : String) : Except PyError PyDate :=
  match splitOnDot date_str.data with
  | [d, m, y] =>
    if digitsOnly d = true ∧ d.length ≤ 2 ∧ digitsOnly m = true ∧
        m.length ≤ 2 ∧ digitsOnly y = true ∧ y.length = 4 then
      let dv := digitsToNat d
      let mv := digitsToNat m
      let yv := digitsToNat y
      if 1 ≤ mv ∧ mv ≤ 12 ∧ 1 ≤ dv ∧ dv ≤ daysInMonth yv mv then
        .ok ⟨yv, mv, dv⟩
      else
        .error .valueError
    else
      .error .valueError
  | _ => .error .valueError

/-! ## Article extraction (HTMLParser) -/

/-- A fetched article page, as the extraction code observes it:
`h1Text` is the text of the first `h1` (none when the page has no
heading); `bodyTexts` are the texts of the article-body elements in
document order; `dateText` is the text of the date-label element when
present; `tagLinkTexts` has one entry per tag-container element — the
text of its first link, or `none` when it has no link (so `.find('a')`
returns None); `authorSpanTexts` likewise per author-container element. -/
structure ArticlePage where
  h1Text : Option String
  bodyTexts : List String
  dateText : Option String
  tagLinkTexts : List (Option String)
  authorSpanTexts : List (Option String)
  deriving DecidableEq

/-- The article record filled in by the parser. -/
structure ArticleRec where
  url : String
  article_id : Nat
  title : String
  text : String
  date : Option PyDate
  topics : List String
  author : List String
  deriving DecidableEq

/-- Modelled from the spec: the external `Article(url, article_id)`
constructor from core_utils (not under src/) produces a record populated
only with the url and sequence id, all other fields empty/default. -/
def defaultArticle (url : String) (article_id : Nat) : ArticleRec :=
  { url := url
  , article_id := article_id
  , title := ""
  , text := ""
  , date := none
  , topics := []
  , author := [] }

/-- `HTMLParser._fill_article_with_text`: concatenates the texts of all
article-body elements with no separator. -/
def fill_article_with_text (page : ArticlePage) (a : ArticleRec) : ArticleRec :=
  { a with text := String.join page.bodyTexts }

/-- Splits a character list on the single space character, keeping empty
pieces, like Python `s.split(' ')`. -/
def splitOnSpace : List Char → List (List Char)
  | [] => [[]]
  | c :: rest =>
    let r := splitOnSpace rest
    if c == ' ' then
      [] :: r
    else
      match r with
      | [] => [[c]]
      | g :: gs => (c :: g) :: gs

/-- Python `s.split(' ')[-1]`, as the source computes an author surname:
the last piece after splitting on the single space character. -/
def lastSpaceTok (s : String) : String :=
  ((splitOnSpace s.data).getLastD []).asString

/-- The topics loop: for each tag-container element, `topic.find('a').text`
— a container with no link raises AttributeError; otherwise the link texts
are collected in document order. -/
def topicsLoop : List (Option String) → Except PyError (List String)
  | [] => .ok []
  | none :: _ => .error .attributeError
  | some t :: rest =>
    match topicsLoop rest with
    | .error e => .error e
    | .ok ts => .ok (t :: ts)

/-- The authors loop: for each author-container element,
`author.find('span').text.split(' ')[-1]` — a container with no span
raises AttributeError; otherwise the last space-delimited piece of each
span text is collected. -/
def authorsLoop : List (Option String) → Except PyError (List String)
  | [] => .ok []
  | none :: _ => .error .attributeError
  | some s :: rest =>
    match authorsLoop rest with
    | .error e => .error e
    | .ok rs => .ok (lastSpaceTok s :: rs)

/-- The date step of `_fill_article_with_meta_information`: when a
date-label element exists its text goes through `unify_date_format`
(a ValueError propagates); otherwise the record's date is untouched. -/
def dateField (page : ArticlePage) (a : ArticleRec) :
    Except PyError (Option PyDate) :=
  match page.dateText with
  | none => .ok a.date
  | some ds =>
    match unify_date_format ds with
    | .error e => .error e
    | .ok d => .ok (some d)

/-- The topics step: a page with no tag-container elements yields the
sentinel; otherwise the loop over the containers runs. -/
def topicsField (page : ArticlePage) : Except PyError (List String) :=
  if page.tagLinkTexts.isEmpty then
    .ok ["NOT FOUND"]
  else
    topicsLoop page.tagLinkTexts

/-- The authors step: a page with no author-container elements yields the
sentinel; otherwise the loop over the containers runs. -/
def authorsField (page : ArticlePage) : Except PyError (List String) :=
  if page.authorSpanTexts.isEmpty then
    .ok ["NOT FOUND"]
  else
    authorsLoop page.authorSpanTexts

/-- `HTMLParser._fill_article_with_meta_information`:
`article_soup.find('h1').text` raises AttributeError when the page has no
heading; then the date, topics and authors steps run in source order, any
error propagating; on success the record carries the title (first heading
text), the parsed date, the topics appended to the existing list, and the
authors list rebuilt from scratch (the source resets it to `[]` first). -/
def fill_article_with_meta_information (page : ArticlePage) (a : ArticleRec) :
    Except PyError ArticleRec :=
  match page.h1Text with
  | none => .error .attributeError
  | some h1 =>
    match dateField page a with
    | .error e => .error e
    | .ok d =>
      match topicsField page with
      | .error e => .error e
      | .ok ts =>
        match authorsField page with
        | .error e => .error e
        | .ok authorsOut =>
          .ok { a with
                title := h1
              , date := d
              , topics := a.topics ++ ts
              , author := authorsOut }

/-- The outcome of fetching an article URL. -/
inductive ArticleFetch where
  | fail
  | ok (page : ArticlePage)

/-- `HTMLParser.parse`: constructs the fresh record, and only when the
response is ok fills text and meta information (errors propagate); on a
failed fetch the untouched fresh record is returned with no failure
signal. -/
def parse (fr : ArticleFetch) (full_url : String) (article_id : Nat) :
    Except PyError ArticleRec :=
  let article := defaultArticle full_url article_id
  match fr with
  | .fail => .ok article
  | .ok page =>
    fill_article_with_meta_information page (fill_article_with_text page article)

/-- Follows the words of the spec: the last whitespace-delimited token of
a name text — the final maximal run of non-whitespace characters. For
comparison with the source's `lastSpaceTok`. -/
def specWsTokens : List Char → List Char → List (List Char)
  | cur, [] => if cur.isEmpty then [] else [cur.reverse]
  | cur, c :: rest =>
    if c.isWhitespace then
      if cur.isEmpty then
        specWsTokens [] rest
      else
        cur.reverse :: specWsTokens [] rest
    else
      specWsTokens (c :: cur) rest

/-- Follows the words of the spec: the last whitespace-delimited token of
`s` (empty when there is none). -/
def specLastWhitespaceToken (s : String) : String :=
  ((specWsTokens [] s.data).getLastD []).asString

/-! ## Concrete instances used in the theorems -/

/-- An otherwise fully valid configuration document whose `seed_urls`
field is the empty list. -/
def cfgEmptySeeds : RawConfig :=
  { seed_urls := .list []
  , total_articles_to_find_and_parse := .int 10
  , headers := .dict []
  , encoding := .str "utf-8"
  , timeout := .int 30
  , should_verify_certificate := .bool true
  , headless_mode := .bool false }

/-- An otherwise valid configuration whose only seed URL does not match
the scheme pattern. -/
def cfgBadSeed : RawConfig :=
  { cfgEmptySeeds with seed_urls := .list [.str "ftp://comnews.ru/"] }

/-- A valid seed list, article count given as the string "10". -/
def cfgStrTotal : RawConfig :=
  { cfgEmptySeeds with
      seed_urls := .list [.str "https://www.comnews.ru/"]
    , total_articles_to_find_and_parse := .str "10" }

/-- A valid seed list, article count 0. -/
def cfgZeroTotal : RawConfig :=
  { cfgStrTotal with total_articles_to_find_and_parse := .int 0 }

/-- A valid seed list, article count 1. -/
def cfgOneTotal : RawConfig :=
  { cfgStrTotal with total_articles_to_find_and_parse := .int 1 }

/-- A fully valid configuration with article count 10. -/
def cfgOkTotal : RawConfig :=
  { cfgStrTotal with total_articles_to_find_and_parse := .int 10 }

/-- A seed page whose content region holds a single `/content/` anchor. -/
def contentAnchorPage : SeedPage :=
  ⟨some [⟨some "/content/a"⟩]⟩

/-- A seed page whose content region holds no anchors at all. -/
def emptyRegionPage : SeedPage :=
  ⟨some []⟩

/-- An article page with no heading element. -/
def noHeadingPage : ArticlePage :=
  ⟨none, [], none, [], []⟩

/-- An article page with a heading, one body fragment, one tag and one
two-word author name. -/
def headedPage : ArticlePage :=
  ⟨some "Title", ["b"], none, [some "x"], [some "A B"]⟩

/-- The record `parse` extracts from `headedPage`. -/
def headedRecord : ArticleRec :=
  ⟨"u", 2, "Title", "b", none, ["x"], ["B"]⟩

/-- An article page with a heading and a date label whose text is not in
day.month.year format. -/
def badDatePage : ArticlePage :=
  ⟨some "T", [], some "2024-03-04", [], []⟩

/-- An article page whose single author-container name text holds a tab
and no space. -/
def tabAuthorPage : ArticlePage :=
  ⟨some "T", [], none, [], [some "Anna\tSmith"]⟩

/-- An article page with no tag containers and one author container. -/
def c9PageA : ArticlePage :=
  ⟨some "T", [], none, [], [some "A B"]⟩

/-- The record `parse` extracts from `c9PageA`. -/
def c9RecA : ArticleRec :=
  ⟨"u", 1, "T", "", none, ["NOT FOUND"], ["B"]⟩

/-- An article page with two tag containers and no author containers. -/
def c9PageB : ArticlePage :=
  ⟨some "T", [], none, [some "x", some "y"], []⟩

/-- The record `parse` extracts from `c9PageB`. -/
def c9RecB : ArticleRec :=
  ⟨"u", 1, "T", "", none, ["x", "y"], ["NOT FOUND"]⟩

/-! ## Theorems -/

/-- C1: with one seed whose page always offers the single link
`/content/a` and a target count of 3, `find_articles` terminates and its
discovered list is `[u, u, None]` — the URL appears twice (once appended
inside `_extract_url`, once re-appended by `find_articles`) and a `None`
placeholder is appended on the stagnant pass, so the list violates the
no-duplicates claim even though its length equals the target count. -/
theorem c1_find_articles_duplicates :
    find_articles url_pattern 3 (fun _ => [.ok contentAnchorPage]) 3 =
      .ok (some [some "https://www.comnews.ru//content/a",
                 some "https://www.comnews.ru//content/a", none]) ∧
    ¬ List.Nodup [some "https://www.comnews.ru//content/a",
                  some "https://www.comnews.ru//content/a",
                  (none : Option String)] ∧
    [some "https://www.comnews.ru//content/a",
     some "https://www.comnews.ru//content/a",
     (none : Option String)].length = 3 :=
  ⟨rfl, by decide, rfl⟩

/-- C3: in the stagnant situation — every fetch succeeds but the pages
offer no qualifying new links, and the discovered count is below the
target of 2 — `find_articles` does not diverge: each processed seed
appends a `None` placeholder, so the list reaches the target length after
finitely many passes and the loop exits with `[None, None]`. -/
theorem c3_stagnant_loop_terminates :
    find_articles url_pattern 2 (fun _ => [.ok emptyRegionPage]) 3 =
      .ok (some [none, none]) :=
  rfl

/-- C4: processing a seed page whose content region holds no qualifying
unseen anchor does change the discovered list within the pass — a `None`
placeholder is appended for that seed — contradicting the claim that the
list is left unchanged. -/
theorem c4_none_placeholder_appended :
    onePass url_pattern 5 [.ok emptyRegionPage] [] = .ok [none] ∧
    ([(none : Option String)] : List (Option String)) ≠ [] :=
  ⟨rfl, by decide⟩

/-- C6: `unify_date_format` parses "04.03.2024" to year 2024, month 3,
day 4; "2024-03-04" does not match the fixed day.month.year pattern and
raises ValueError; and whenever the date-label text fails to parse on a
page that has a heading, the ValueError propagates out of `parse` instead
of being swallowed. -/
theorem c6_date_parsing :
    unify_date_format "04.03.2024" = .ok ⟨2024, 3, 4⟩ ∧
    unify_date_format "2024-03-04" = .error .valueError ∧
    (∀ (page : ArticlePage) (url t ds : String) (i : Nat),
      page.h1Text = some t → page.dateText = some ds →
      unify_date_format ds = .error .valueError →
      parse (.ok page) url i = .error .valueError) := by
  refine ⟨rfl, rfl, ?_⟩
  intro page url t ds i h1 hd hbad
  simp [parse, fill_article_with_meta_information, fill_article_with_text,
    dateField, h1, hd, hbad]

/-- C6 witness: on a concrete page carrying the date text "2024-03-04"
and a heading, `parse` fails with ValueError. -/
theorem c6_date_parsing_witness :
    parse (.ok badDatePage) "u" 1 = .error .valueError :=
  c6_date_parsing.2.2 badDatePage "u" "T" "2024-03-04" 1 rfl rfl rfl

/-- C8: on a failed article fetch, `parse` returns — with no failure
signal — the freshly constructed record holding only the url and the
sequence id, every other field at its empty default. -/
theorem c8_degenerate_record (url : String) (i : Nat) :
    parse .fail url i = .ok (defaultArticle url i) ∧
    defaultArticle url i =
      { url := url, article_id := i, title := "", text := "",
        date := none, topics := [], author := [] } :=
  ⟨rfl, rfl⟩

/-- Any record a successful `parse` returns carries the first heading
text as its title and exactly the outputs of the topics and authors
steps. -/
theorem parse_ok_inv (page : ArticlePage) (url : String) (i : Nat)
    (a : ArticleRec) (hp : parse (.ok page) url i = .ok a) :
    page.h1Text = some a.title ∧
    topicsField page = .ok a.topics ∧
    authorsField page = .ok a.author := by
  rcases hh : page.h1Text with _ | t
  · simp [parse, fill_article_with_meta_information, hh] at hp
  · rcases hdf : dateField page (fill_article_with_text page (defaultArticle url i))
      with e | d
    · simp [parse, fill_article_with_meta_information, hh, hdf] at hp
    · rcases htf : topicsField page with e | ts
      · simp [parse, fill_article_with_meta_information, hh, hdf, htf] at hp
      · rcases haf : authorsField page with e | authorsOut
        · simp [parse, fill_article_with_meta_information, hh, hdf, htf, haf] at hp
        · simp only [parse, fill_article_with_meta_information, hh, hdf, htf, haf,
            Except.ok.injEq] at hp
          subst hp
          exact ⟨rfl, rfl, rfl⟩

/-- C7: `parse` on a page with no heading element raises AttributeError
(the failure propagates, no record is returned); on a page with a
heading, any returned record's title is the text of the first heading. -/
theorem c7_title_extraction :
    (∀ (page : ArticlePage) (url : String) (i : Nat),
      page.h1Text = none → parse (.ok page) url i = .error .attributeError) ∧
    (∀ (page : ArticlePage) (url : String) (i : Nat) (t : String) (a : ArticleRec),
      page.h1Text = some t → parse (.ok page) url i = .ok a → a.title = t) := by
  constructor
  · intro page url i h
    simp [parse, fill_article_with_meta_information, h]
  · intro page url i t a h hp
    have hinv := (parse_ok_inv page url i a hp).1
    exact (Option.some.inj (h.symm.trans hinv)).symm

/-- C7 witness: the concrete heading-less page makes `parse` raise
AttributeError, and on a concrete headed page the extracted record's
title is the heading text. -/
theorem c7_title_extraction_witness :
    parse (.ok noHeadingPage) "u" 1 = .error .attributeError ∧
    headedRecord.title = "Title" :=
  ⟨c7_title_extraction.1 noHeadingPage "u" 1 rfl,
   c7_title_extraction.2 headedPage "u" 2 "Title" headedRecord rfl rfl⟩

/-- The authors loop over containers that all have a span collects the
last space-delimited piece of each span text, in document order. -/
theorem authorsLoop_map (spans : List String) :
    authorsLoop (spans.map some) = .ok (spans.map lastSpaceTok) := by
  induction spans with
  | nil => rfl
  | cons s rest ih => simp [authorsLoop, ih]

/-- C9 (amended): a page with no tag containers yields topics exactly
["NOT FOUND"], two tag containers yield their two link texts in document
order; no author containers yield authors exactly ["NOT FOUND"], and each
author entry is the last piece of the span text split on the single space
character. -/
theorem c9_topics_authors_amended :
    (∀ (page : ArticlePage) (url : String) (i : Nat) (a : ArticleRec),
      page.tagLinkTexts = [] → parse (.ok page) url i = .ok a →
      a.topics = ["NOT FOUND"]) ∧
    (∀ (page : ArticlePage) (url : String) (i : Nat) (a : ArticleRec)
        (t1 t2 : String),
      page.tagLinkTexts = [some t1, some t2] →
      parse (.ok page) url i = .ok a → a.topics = [t1, t2]) ∧
    (∀ (page : ArticlePage) (url : String) (i : Nat) (a : ArticleRec),
      page.authorSpanTexts = [] → parse (.ok page) url i = .ok a →
      a.author = ["NOT FOUND"]) ∧
    (∀ (page : ArticlePage) (url : String) (i : Nat) (a : ArticleRec)
        (spans : List String),
      spans ≠ [] → page.authorSpanTexts = spans.map some →
      parse (.ok page) url i = .ok a →
      a.author = spans.map lastSpaceTok) := by
  refine ⟨?_, ?_, ?_, ?_⟩
  · intro page url i a ht hp
    have h2 := (parse_ok_inv page url i a hp).2.1
    simp [topicsField, ht] at h2
    exact h2.symm
  · intro page url i a t1 t2 ht hp
    have h2 := (parse_ok_inv page url i a hp).2.1
    simp [topicsField, ht, topicsLoop] at h2
    exact h2.symm
  · intro page url i a hs hp
    have h2 := (parse_ok_inv page url i a hp).2.2
    simp [authorsField, hs] at h2
    exact h2.symm
  · intro page url i a spans hne hs hp
    have h2 := (parse_ok_inv page url i a hp).2.2
    have hloop := authorsLoop_map spans
    rcases spans with _ | ⟨s, rest⟩
    · exact absurd rfl hne
    · simp only [List.map_cons] at hloop
      simp [authorsField, hs, hloop] at h2
      simp only [List.map_cons]
      first
      | exact h2
      | exact h2.symm

/-- C9 witness: concrete pages exercising all four parts of the amended
claim. -/
theorem c9_topics_authors_witness :
    c9RecA.topics = ["NOT FOUND"] ∧
    c9RecB.topics = ["x", "y"] ∧
    c9RecB.author = ["NOT FOUND"] ∧
    c9RecA.author = List.map lastSpaceTok ["A B"] :=
  ⟨c9_topics_authors_amended.1 c9PageA "u" 1 c9RecA rfl rfl,
   c9_topics_authors_amended.2.1 c9PageB "u" 1 c9RecB "x" "y" rfl rfl,
   c9_topics_authors_amended.2.2.1 c9PageB "u" 1 c9RecB rfl rfl,
   c9_topics_authors_amended.2.2.2 c9PageA "u" 1 c9RecA ["A B"] (by decide) rfl rfl⟩

/-- C9 counterexample: the author name text "Anna\tSmith" holds a tab and
no space, so the source extracts the whole text, while the last
whitespace-delimited token is "Smith" — the claim's description fails on
this page. -/
theorem c9_topics_authors_counterexample :
    parse (.ok tabAuthorPage) "u" 1 =
      .ok ⟨"u", 1, "T", "", none, ["NOT FOUND"], ["Anna\tSmith"]⟩ ∧
    specLastWhitespaceToken "Anna\tSmith" = "Smith" ∧
    ("Anna\tSmith" : String) ≠ "Smith" :=
  ⟨rfl, rfl, by decide⟩

/-- A list of string elements containing one that fails the seed pattern
makes the `all(...)` generator come out false. -/
theorem allSeedsMatch_ok_false (s : String)
    (hbad : matchesSeedPattern s = false) :
    ∀ xs : List Json, (∀ j ∈ xs, ∃ t, j = Json.str t) →
      Json.str s ∈ xs → allSeedsMatch xs = .ok false := by
  intro xs
  induction xs with
  | nil => intro _ hmem; cases hmem
  | cons j rest ih =>
    intro hstr hmem
    obtain ⟨t, ht⟩ := hstr j (List.mem_cons_self j rest)
    subst ht
    rcases List.mem_cons.mp hmem with heq | hmem2
    · obtain rfl : s = t := Json.str.inj heq
      simp [allSeedsMatch, hbad]
    · by_cases hm : matchesSeedPattern t = true
      · have hrest := ih (fun j hj => hstr j (List.mem_cons_of_mem _ hj)) hmem2
        simp [allSeedsMatch, hm, hrest]
      · simp only [Bool.not_eq_true] at hm
        simp [allSeedsMatch, hm]

/-- C2 (amended): a seed list of strings containing one that does not
match `http(s)://` fails construction with IncorrectSeedURLError; the
empty seed list, however, passes the seed rule — an otherwise valid
configuration with empty `seed_urls` validates successfully. -/
theorem c2_seed_rule_amended (c : RawConfig) (xs : List Json) (s : String)
    (hlist : c.seed_urls = Json.list xs)
    (hstr : ∀ j ∈ xs, ∃ t, j = Json.str t)
    (hmem : Json.str s ∈ xs)
    (hbad : matchesSeedPattern s = false) :
    validate_config_content c = .error .IncorrectSeedURLError ∧
    validate_config_content cfgEmptySeeds = .ok () := by
  constructor
  · have hall := allSeedsMatch_ok_false s hbad xs hstr hmem
    have hcs : check_seed_urls c = .error .IncorrectSeedURLError := by
      simp [check_seed_urls, hlist, hall]
    simp [validate_config_content, hcs]
  · rfl

/-- C2 witness: the concrete configuration whose single seed is
"ftp://comnews.ru/" fails validation with IncorrectSeedURLError. -/
theorem c2_seed_rule_witness :
    validate_config_content cfgBadSeed = .error .IncorrectSeedURLError :=
  (c2_seed_rule_amended cfgBadSeed [.str "ftp://comnews.ru/"] "ftp://comnews.ru/"
    rfl
    (by
      intro j hj
      rw [List.mem_singleton] at hj
      exact ⟨"ftp://comnews.ru/", hj⟩)
    (List.mem_singleton.mpr rfl)
    rfl).1

/-- C2 counterexample: an otherwise fully valid configuration whose
`seed_urls` is the empty list passes validation — no IncorrectSeedURLError
is raised and a configuration object is produced, refuting the claim that
an empty seed list fails. -/
theorem c2_seed_rule_counterexample :
    cfgEmptySeeds.seed_urls = Json.list [] ∧
    validate_config_content cfgEmptySeeds = .ok () :=
  ⟨rfl, rfl⟩

/-- C5 (amended): a non-integer count raises IncorrectNumberOfArticlesError;
so does an integer count that is zero or negative; an integer count of 1
or above 150 raises NumberOfArticlesOutOfRangeError; a count in (1, 150]
passes the count rule. -/
theorem c5_count_rule_amended (c : RawConfig)
    (hseed : check_seed_urls c = .ok ()) :
    (pyIsInt c.total_articles_to_find_and_parse = false →
      validate_config_content c = .error .IncorrectNumberOfArticlesError) ∧
    (∀ n : Int, c.total_articles_to_find_and_parse = Json.int n → n ≤ 0 →
      validate_config_content c = .error .IncorrectNumberOfArticlesError) ∧
    (∀ n : Int, c.total_articles_to_find_and_parse = Json.int n →
      (n = 1 ∨ 150 < n) →
      validate_config_content c = .error .NumberOfArticlesOutOfRangeError) ∧
    (∀ n : Int, c.total_articles_to_find_and_parse = Json.int n →
      1 < n → n ≤ 150 → check_num_articles c = .ok ()) := by
  refine ⟨?_, ?_, ?_, ?_⟩
  · intro hni
    have hcn : check_num_articles c = .error .IncorrectNumberOfArticlesError := by
      simp [check_num_articles, hni]
    simp [validate_config_content, hseed, hcn]
  · intro n hn hle
    have hcn : check_num_articles c = .error .IncorrectNumberOfArticlesError := by
      simp [check_num_articles, hn, pyIsInt, pyIntVal, hle]
    simp [validate_config_content, hseed, hcn]
  · intro n hn hd
    have h0 : ¬ (n ≤ (0 : Int)) := by omega
    have h12 : ¬ ((1 : Int) < n ∧ n ≤ 150) := by omega
    have hcn : check_num_articles c = .error .NumberOfArticlesOutOfRangeError := by
      simp [check_num_articles, hn, pyIsInt, pyIntVal, h0, h12]
    simp [validate_config_content, hseed, hcn]
  · intro n hn h1 h2
    have h0 : ¬ (n ≤ (0 : Int)) := by omega
    simp [check_num_articles, hn, pyIsInt, pyIntVal, h0, h1, h2]

/-- C5 witness: concrete configurations exercising all four parts of the
amended count rule. -/
theorem c5_count_rule_witness :
    validate_config_content cfgStrTotal = .error .IncorrectNumberOfArticlesError ∧
    validate_config_content cfgZeroTotal = .error .IncorrectNumberOfArticlesError ∧
    validate_config_content cfgOneTotal = .error .NumberOfArticlesOutOfRangeError ∧
    check_num_articles cfgOkTotal = .ok () :=
  ⟨(c5_count_rule_amended cfgStrTotal rfl).1 rfl,
   (c5_count_rule_amended cfgZeroTotal rfl).2.1 0 rfl (by decide),
   (c5_count_rule_amended cfgOneTotal rfl).2.2.1 1 rfl (Or.inl rfl),
   (c5_count_rule_amended cfgOkTotal rfl).2.2.2 10 rfl (by decide) (by decide)⟩

/-- C5 counterexample: with the integer count 0 — which is ≤ 1 —
validation fails with IncorrectNumberOfArticlesError, not with the
out-of-range kind the claim names for integers ≤ 1. -/
theorem c5_count_rule_counterexample :
    validate_config_content cfgZeroTotal = .error .IncorrectNumberOfArticlesError ∧
    VError.IncorrectNumberOfArticlesError ≠ VError.NumberOfArticlesOutOfRangeError ∧
    cfgZeroTotal.total_articles_to_find_and_parse = Json.int 0 :=
  ⟨rfl, by decide, rfl⟩

/-- Scanning anchors in document order, a run of anchors that each have
an href but are non-qualifying or already discovered is skipped without
touching the list, so a following anchor with no href is reached and its
missing href is dereferenced. -/
theorem extractLoop_error_of_guarded (pat : String) (urls : List (Option String)) :
    ∀ pre rest : List Anchor,
      (∀ a ∈ pre, ∃ h, a.href = some h ∧
        (startsWithStr h "/content/" = false ∨ some (pat ++ h) ∈ urls)) →
      extractLoop pat (pre ++ Anchor.mk none :: rest) urls =
        .error .attributeError := by
  intro pre
  induction pre with
  | nil => intro rest _; rfl
  | cons a pre2 ih =>
    intro rest hyp
    obtain ⟨h, hhref, hcase⟩ := hyp a (List.mem_cons_self a pre2)
    have IH := ih rest (fun b hb => hyp b (List.mem_cons_of_mem a hb))
    rcases hcase with hns | hmem
    · simp [extractLoop, hhref, hns, IH]
    · by_cases hs : startsWithStr h "/content/" = true
      · simp [extractLoop, hhref, hs, hmem, IH]
      · simp only [Bool.not_eq_true] at hs
        simp [extractLoop, hhref, hs, IH]

/-- C10 (amended): `_extract_url` raises AttributeError whenever the
primary content container is absent; and it raises AttributeError on an
anchor with no href whenever every anchor scanned before it either has an
href not starting with /content/ or maps to an already-discovered URL —
when a qualifying unseen anchor comes first, the method instead returns
that URL before reaching the guard-less dereference. -/
theorem c10_extract_url_amended :
    (∀ (pat : String) (urls : List (Option String)),
      extract_url pat ⟨none⟩ urls = .error .attributeError) ∧
    (∀ (pat : String) (urls : List (Option String)) (pre rest : List Anchor),
      (∀ a ∈ pre, ∃ h, a.href = some h ∧
        (startsWithStr h "/content/" = false ∨ some (pat ++ h) ∈ urls)) →
      extract_url pat ⟨some (pre ++ Anchor.mk none :: rest)⟩ urls =
        .error .attributeError) := by
  constructor
  · intro pat urls; rfl
  · intro pat urls pre rest hyp
    exact extractLoop_error_of_guarded pat urls pre rest hyp

/-- C10 witness: a missing container raises, and a page whose first
anchor is non-qualifying and whose second anchor has no href raises. -/
theorem c10_extract_url_witness :
    extract_url url_pattern ⟨none⟩ [] = .error .attributeError ∧
    extract_url url_pattern
        ⟨some [Anchor.mk (some "/bad"), Anchor.mk none]⟩ [] =
      .error .attributeError :=
  ⟨c10_extract_url_amended.1 url_pattern [],
   c10_extract_url_amended.2 url_pattern [] [Anchor.mk (some "/bad")] []
     (by
       intro a ha
       rw [List.mem_singleton] at ha
       subst ha
       exact ⟨"/bad", rfl, Or.inl rfl⟩)⟩

/-- C10 counterexample: a content region containing an href-less anchor
does not always raise — when a qualifying unseen `/content/` anchor comes
first in document order, `_extract_url` returns that URL without error. -/
theorem c10_extract_url_counterexample :
    extract_url url_pattern ⟨some [⟨some "/content/x"⟩, ⟨none⟩]⟩ [] =
      .ok (some "https://www.comnews.ru//content/x",
           [some "https://www.comnews.ru//content/x"]) ∧
    (extract_url url_pattern ⟨some [⟨some "/content/x"⟩, ⟨none⟩]⟩ []).isOk = true :=
  ⟨rfl, rfl⟩

end Scrapper
